import Mathlib

/-!
Shallow embedding of the SSO-teammate reconciliation core of
`terraform-provider-sendgrid` (`internal/provider/resource_sso_teammate.go`),
together with theorems settling the frozen claims about it.

Terraform-plugin-framework values (`types.String`, `types.Bool`, `types.Set`,
`types.List`) are modelled as three-state inductives (null / unknown / value),
matching `IsNull` / `IsUnknown` / `ValueString` semantics. Remote HTTP calls
are modelled by a `Response` value: either a transport error or a status code
with a raw body and, when the body parses, its decoded form (`json.Unmarshal`
success is the `some` case).
-/

namespace SendGridSSOTeammate

/-- Model of `types.String`: null, unknown, or a concrete string value. -/
inductive TFString where
  | null
  | unknown
  | value (s : String)
deriving DecidableEq, Repr

/-- `types.String.ValueString()`: the value, or `""` for null/unknown. -/
def TFString.valueString : TFString → String
  | .value s => s
  | _ => ""

/-- `types.String.IsNull()`. -/
def TFString.isNull : TFString → Bool
  | .null => true
  | _ => false

/-- `types.String.IsUnknown()`. -/
def TFString.isUnknown : TFString → Bool
  | .unknown => true
  | _ => false

/-- Model of `types.Bool`. -/
inductive TFBool where
  | null
  | unknown
  | value (b : Bool)
deriving DecidableEq, Repr

/-- `types.Bool.ValueBool()`: the value, or `false` for null/unknown. -/
def TFBool.valueBool : TFBool → Bool
  | .value b => b
  | _ => false

/-- `types.Bool.IsNull()`. -/
def TFBool.isNull : TFBool → Bool
  | .null => true
  | _ => false

/-- `types.Bool.IsUnknown()`. -/
def TFBool.isUnknown : TFBool → Bool
  | .unknown => true
  | _ => false

/-- Model of `types.Set` of strings (the `scopes` attribute). -/
inductive TFSet where
  | null
  | unknown
  | value (elems : List String)
deriving DecidableEq, Repr

/-- `types.Set.IsNull()`. -/
def TFSet.isNull : TFSet → Bool
  | .null => true
  | _ => false

/-- `types.Set.IsUnknown()`. -/
def TFSet.isUnknown : TFSet → Bool
  | .unknown => true
  | _ => false

/-- `ElementsAs` on a known set value (callers guard null/unknown first). -/
def TFSet.elems : TFSet → List String
  | .value l => l
  | _ => []

/-- `subuserAccessObject`: one element of the `subuser_access` block list. -/
structure SubuserAccessObject where
  id : Int
  permissionType : String
  scopes : TFSet
deriving DecidableEq, Repr

/-- Model of `types.List` of `subuserAccessObject`. -/
inductive TFList where
  | null
  | unknown
  | value (objs : List SubuserAccessObject)
deriving DecidableEq, Repr

/-- `types.List.IsNull()`. -/
def TFList.isNull : TFList → Bool
  | .null => true
  | _ => false

/-- `types.List.IsUnknown()`. -/
def TFList.isUnknown : TFList → Bool
  | .unknown => true
  | _ => false

/-- `ElementsAs` on a known list value (callers guard null/unknown first). -/
def TFList.objs : TFList → List SubuserAccessObject
  | .value l => l
  | _ => []

/-- `ssoTeammateModel`: the Terraform state/plan model of the resource. -/
structure SsoTeammateModel where
  id : TFString
  email : TFString
  firstName : TFString
  lastName : TFString
  hasRestricted : TFBool
  subuserAccess : TFList
  status : TFString
deriving DecidableEq, Repr

/-- `subuserAccessEntry`: wire representation of one grant (a Go `nil`
slice of scopes is modelled as `[]`, exactly as `len` and `range` see it). -/
structure SubuserAccessEntry where
  id : Int
  permissionType : String
  scopes : List String
deriving DecidableEq, Repr

/-- `teammateGetResponse`: decoded body of `GET /v3/teammates/:username`. -/
structure TeammateGetResponse where
  username : String
  email : String
  status : String
  firstName : String
  lastName : String
deriving DecidableEq, Repr

/-- `teammateSubuserAccessResponse`: decoded body of one page of
`GET /v3/teammates/:username/subuser_access`, including the
`_metadata.next_params` descriptor. -/
structure SubuserAccessPage where
  hasRestrictedSubuserAccess : Bool
  subuserAccess : List SubuserAccessEntry
  nextLimit : Int
  nextAfterSubuserID : Int
  nextUsername : String
deriving DecidableEq, Repr

/-- One remote call's outcome: `sendgrid.API` returning an error, or a
status code with raw body; `decoded` is `some` exactly when
`json.Unmarshal` of the body into the expected structure succeeds. -/
inductive Response (α : Type) where
  | transportError (msg : String)
  | httpResp (status : Nat) (body : String) (decoded : Option α)
deriving DecidableEq

/-- The error kinds the resource reports through `resp.Diagnostics`. -/
inductive OpError where
  | transport (msg : String)
  | remote (status : Nat) (body : String)
  | decode (msg : String)
  | config (msg : String)
deriving DecidableEq, Repr

/-- Query parameters of one paginated `subuser_access` request:
`limit` is always set; `after_subuser_id` only when the running
`afterID` is positive. -/
structure PageRequest where
  limit : Nat
  afterSubuserID : Option Int
deriving DecidableEq, Repr

/-- Request construction inside the pagination loop:
`QueryParams["limit"] = "100"` always, and
`QueryParams["after_subuser_id"]` exactly when `afterID > 0`. -/
def mkPageRequest (afterID : Int) : PageRequest :=
  { limit := 100
    afterSubuserID := if afterID > 0 then some afterID else none }

/-- The pagination loop shared by Create, Read and Update read-back:
starting from `afterID = 0`, issue a request, abort on transport error,
status `>= 300`, or parse failure; otherwise record the page's
`has_restricted_subuser_access` flag, append its grants, stop when
`next_params.after_subuser_id` is `0`, and otherwise continue with that
marker as the new `afterID`. The responses the server would give are
supplied as a list consumed in order; exhausting it models a server that
stops answering (a transport error). Returns the trace of requests
issued together with the outcome. -/
def fetchSubuserAccess :
    Int → List (Response SubuserAccessPage) →
    List PageRequest × Except OpError (List SubuserAccessEntry × Bool)
  | afterID, [] => ([mkPageRequest afterID], .error (.transport "no response"))
  | afterID, r :: rest =>
    match r with
    | .transportError m => ([mkPageRequest afterID], .error (.transport m))
    | .httpResp status body decoded =>
      if status ≥ 300 then
        ([mkPageRequest afterID], .error (.remote status body))
      else
        match decoded with
        | none => ([mkPageRequest afterID], .error (.decode body))
        | some sa =>
          if sa.nextAfterSubuserID = 0 then
            ([mkPageRequest afterID],
             .ok (sa.subuserAccess, sa.hasRestrictedSubuserAccess))
          else
            let res := fetchSubuserAccess sa.nextAfterSubuserID rest
            (mkPageRequest afterID :: res.1,
             match res.2 with
             | .error e => .error e
             | .ok (entries, flag) =>
               .ok (sa.subuserAccess ++ entries, flag))

/-- A list of pages all delivered as successful, well-formed responses
(status 200, body decodes). -/
def okPages (pages : List SubuserAccessPage) : List (Response SubuserAccessPage) :=
  pages.map (fun p => .httpResp 200 "" (some p))

/-- The state-model object built from one read-back grant entry
(lines mapping `allEntries` to `subuserAccessObject`): scopes become a
set value when the returned list is non-empty and `types.SetNull`
otherwise. -/
def entryToObject (e : SubuserAccessEntry) : SubuserAccessObject :=
  { id := e.id
    permissionType := e.permissionType
    scopes := if e.scopes.length > 0 then TFSet.value e.scopes else TFSet.null }

/-- The `subuser_access` state list built from all read-back entries:
a list value when non-empty, `types.ListNull` otherwise. -/
def entriesToList (entries : List SubuserAccessEntry) : TFList :=
  if entries.length > 0 then .value (entries.map entryToObject) else .null

/-- Name normalization shared by Create/Read/Update read-back:
a non-empty returned name is stored verbatim, an empty one as
`types.StringNull()`. -/
def normName (s : String) : TFString :=
  if s ≠ "" then .value s else .null

/-- Conversion of one plan `subuserAccessObject` into a wire
`subuserAccessEntry` (Create and Update build payload entries this way):
scopes are copied only when the plan set is neither null nor unknown,
otherwise the Go slice stays `nil` (modelled `[]`). -/
def objToEntry (o : SubuserAccessObject) : SubuserAccessEntry :=
  { id := o.id
    permissionType := o.permissionType
    scopes := if !o.scopes.isNull && !o.scopes.isUnknown then o.scopes.elems else [] }

/-- `ssoCreatePayload`: the Create request body. -/
structure SsoCreatePayload where
  email : String
  firstName : String
  lastName : String
  hasRestricted : Bool
  subuserAccess : List SubuserAccessEntry
deriving DecidableEq, Repr

/-- Building the Create payload from the plan (`ValueString` of a
null/unknown optional name yields `""`; `subuser_access` is built only
when the plan list is neither null nor unknown). -/
def mkCreatePayload (plan : SsoTeammateModel) : SsoCreatePayload :=
  { email := plan.email.valueString
    firstName := plan.firstName.valueString
    lastName := plan.lastName.valueString
    hasRestricted := plan.hasRestricted.valueBool
    subuserAccess :=
      if !plan.subuserAccess.isNull && !plan.subuserAccess.isUnknown then
        plan.subuserAccess.objs.map objToEntry
      else [] }

/-- `ssoPatchPayload`: the Update request body. Pointer fields are
`Option`; the grant slice is `nil`/`[]` when absent. -/
structure SsoPatchPayload where
  firstName : Option String
  lastName : Option String
  hasRestricted : Option Bool
  subuserAccess : List SubuserAccessEntry
deriving DecidableEq, Repr

/-- Building the Update patch from the plan: each pointer field is set
exactly when the corresponding plan field is neither null nor unknown;
the grant slice is filled from the plan list when it is neither null
nor unknown. -/
def mkPatchPayload (plan : SsoTeammateModel) : SsoPatchPayload :=
  { firstName :=
      if !plan.firstName.isNull && !plan.firstName.isUnknown then
        some plan.firstName.valueString
      else none
    lastName :=
      if !plan.lastName.isNull && !plan.lastName.isUnknown then
        some plan.lastName.valueString
      else none
    hasRestricted :=
      if !plan.hasRestricted.isNull && !plan.hasRestricted.isUnknown then
        some plan.hasRestricted.valueBool
      else none
    subuserAccess :=
      if !plan.subuserAccess.isNull && !plan.subuserAccess.isUnknown then
        plan.subuserAccess.objs.map objToEntry
      else [] }

/-- The JSON keys `encoding/json` actually serializes for the patch:
every field carries `omitempty`, which omits a `nil` pointer (but keeps
a non-nil pointer, even to `""` or `false`) and omits a `nil` or empty
slice. -/
def patchJSONFields (p : SsoPatchPayload) : List String :=
  (if p.firstName.isSome then ["first_name"] else []) ++
  (if p.lastName.isSome then ["last_name"] else []) ++
  (if p.hasRestricted.isSome then ["has_restricted_subuser_access"] else []) ++
  (if p.subuserAccess.length > 0 then ["subuser_access"] else [])

/-- Username resolution at the start of Read: the stored email; if that
is empty and the stored id is neither null nor unknown, the stored id. -/
def resolveUsername (email idField : TFString) : String :=
  let u := email.valueString
  if u = "" && !idField.isNull && !idField.isUnknown then idField.valueString else u

/-- Outcome of Read: an error (tracked state left in place), removal of
the resource from tracked state (`resp.State.RemoveResource`), or a
fully rebuilt state (`resp.State.Set`). -/
inductive ReadResult where
  | err (e : OpError)
  | removed
  | ok (state : SsoTeammateModel)
deriving DecidableEq, Repr

/-- The environment a Read runs against: the scalar
`GET /v3/teammates/:username` response and the successive
`subuser_access` page responses. -/
structure ReadEnv where
  scalarResp : Response TeammateGetResponse
  pageResps : List (Response SubuserAccessPage)

/-- Full state rebuild at the end of Read (never a partial merge):
email and id from the returned email, names normalized, restriction
flag and grants from the pagination loop, status from the server. -/
def assembleReadState (got : TeammateGetResponse)
    (entries : List SubuserAccessEntry) (flag : Bool) : SsoTeammateModel :=
  { id := .value got.email
    email := .value got.email
    firstName := normName got.firstName
    lastName := normName got.lastName
    hasRestricted := .value flag
    subuserAccess := entriesToList entries
    status := .value got.status }

/-- The Read operation. Returns the outcome paired with the number of
remote calls performed. Resolution of the username happens first; when
it is empty a configuration error is reported and no remote call is
made. A 404 on the scalar fetch removes the resource; any other status
`>= 300` is a remote error. On success the whole state is rebuilt from
the server's answers via `assembleReadState`. -/
def readResource (state : SsoTeammateModel) (env : ReadEnv) : ReadResult × Nat :=
  let username := resolveUsername state.email state.id
  if username = "" then (.err (.config "Missing identifier"), 0)
  else
    match env.scalarResp with
    | .transportError m => (.err (.transport m), 1)
    | .httpResp status body decoded =>
      if status = 404 then (.removed, 1)
      else if status ≥ 300 then (.err (.remote status body), 1)
      else
        match decoded with
        | none => (.err (.decode body), 1)
        | some got =>
          let fetched := fetchSubuserAccess 0 env.pageResps
          match fetched.2 with
          | .error e => (.err e, 1 + fetched.1.length)
          | .ok (entries, flag) =>
            (.ok (assembleReadState got entries flag), 1 + fetched.1.length)

/-- Outcome of Create/Update: an error (no state committed) or the
read-back state committed via `resp.State.Set`. -/
inductive OpResult where
  | err (e : OpError)
  | ok (state : SsoTeammateModel)
deriving DecidableEq, Repr

/-- The environment a Create or Update runs against: the mutating call's
response (body never decoded), the post-mutation scalar read, and the
`subuser_access` page responses. -/
structure MutateEnv where
  mutateResp : Response Unit
  scalarResp : Response TeammateGetResponse
  pageResps : List (Response SubuserAccessPage)

/-- Final state assembly shared by Create and Update read-back: names
normalized from the scalar response, status and restriction flag taken
from the server, grants from the pagination loop, id set to the plan's
email; the plan's email itself is kept. -/
def assembleReadback (plan : SsoTeammateModel) (got : TeammateGetResponse)
    (entries : List SubuserAccessEntry) (flag : Bool) : SsoTeammateModel :=
  { plan with
    firstName := normName got.firstName
    lastName := normName got.lastName
    status := .value got.status
    hasRestricted := .value flag
    subuserAccess := entriesToList entries
    id := .value plan.email.valueString }

/-- The common body of Create and Update: check the mutating call
(transport error or status `>= 300` aborts), then the scalar read-back
(same checks plus a parse check), then the pagination loop; only when
everything succeeded is a state assembled and committed. -/
def mutateWithReadback (plan : SsoTeammateModel) (env : MutateEnv) : OpResult :=
  match env.mutateResp with
  | .transportError m => .err (.transport m)
  | .httpResp status body _ =>
    if status ≥ 300 then .err (.remote status body)
    else
      match env.scalarResp with
      | .transportError m => .err (.transport m)
      | .httpResp gs gb gd =>
        if gs ≥ 300 then .err (.remote gs gb)
        else
          match gd with
          | none => .err (.decode gb)
          | some got =>
            match (fetchSubuserAccess 0 env.pageResps).2 with
            | .error e => .err e
            | .ok (entries, flag) => .ok (assembleReadback plan got entries flag)

/-- The Create operation (POST then mandatory read-back). -/
def createResource (plan : SsoTeammateModel) (env : MutateEnv) : OpResult :=
  mutateWithReadback plan env

/-- The Update operation (PATCH with `mkPatchPayload plan`, then the
read-back identical to Create's). -/
def updateResource (plan _state : SsoTeammateModel) (env : MutateEnv) : OpResult :=
  mutateWithReadback plan env

/-- The Delete operation: `none` is success; a status `>= 300` other
than 404 is a remote error; a transport failure is an error. -/
def deleteResource (_state : SsoTeammateModel) (resp : Response Unit) : Option OpError :=
  match resp with
  | .transportError m => some (.transport m)
  | .httpResp status body _ =>
    if status ≥ 300 ∧ status ≠ 404 then some (.remote status body) else none

/-- `sendgrid.API` returned a status below 300 (no transport error). -/
def Response.succeeds {α : Type} : Response α → Bool
  | .httpResp s _ _ => s < 300
  | .transportError _ => false

/-- The call succeeded and its body decoded. -/
def Response.decodes {α : Type} : Response α → Bool
  | .httpResp s _ (some _) => s < 300
  | _ => false

/-- The pagination outcome is a success. -/
def fetchOk (res : Except OpError (List SubuserAccessEntry × Bool)) : Bool :=
  match res with
  | .ok _ => true
  | .error _ => false

/-- Every remote interaction of a Create/Update succeeded: the mutating
call, the scalar read-back (including decoding), and the whole
pagination loop. -/
def envAllOk (env : MutateEnv) : Prop :=
  env.mutateResp.succeeds = true ∧ env.scalarResp.decodes = true ∧
    fetchOk (fetchSubuserAccess 0 env.pageResps).2 = true

instance (env : MutateEnv) : Decidable (envAllOk env) := by
  unfold envAllOk; infer_instance

/-- One successful, non-final step of the pagination loop: a decodable
200 page with a nonzero marker prepends its request and grants and
continues with the marker as the new `afterID`. -/
theorem fetchSubuserAccess_cons_ok (afterID : Int) (p : SubuserAccessPage)
    (rest : List (Response SubuserAccessPage)) (hp : p.nextAfterSubuserID ≠ 0) :
    fetchSubuserAccess afterID (.httpResp 200 "" (some p) :: rest) =
      (mkPageRequest afterID :: (fetchSubuserAccess p.nextAfterSubuserID rest).1,
       match (fetchSubuserAccess p.nextAfterSubuserID rest).2 with
       | .error e => .error e
       | .ok (entries, flag) =>
         .ok (p.subuserAccess ++ entries, flag)) := by
  simp [fetchSubuserAccess, hp]

/-- Characterization of the pagination loop on a well-formed run: when
every response arrives as a decodable 200 page, every page except the
last carries a nonzero continuation marker and the last carries the
sentinel `0`, the loop issues one request per page — the first with the
incoming `afterID`, each later one built from the previous page's
marker — and succeeds with the in-order concatenation of all pages'
grants and the last page's restriction flag. -/
theorem fetchSubuserAccess_okPages (afterID : Int) (pages : List SubuserAccessPage)
    (h : pages ≠ [])
    (hmid : ∀ p ∈ pages.dropLast, p.nextAfterSubuserID ≠ 0)
    (hlast : (pages.getLast h).nextAfterSubuserID = 0) :
    fetchSubuserAccess afterID (okPages pages) =
      ((afterID :: pages.dropLast.map (fun p => p.nextAfterSubuserID)).map mkPageRequest,
       Except.ok ((pages.map (fun p => p.subuserAccess)).flatten,
         (pages.getLast h).hasRestrictedSubuserAccess)) := by
  induction pages generalizing afterID with
  | nil => exact absurd rfl h
  | cons p rest ih =>
    cases rest with
    | nil =>
      have h0 : p.nextAfterSubuserID = 0 := hlast
      simp [okPages, fetchSubuserAccess, h0]
    | cons q rest2 =>
      have hne : q :: rest2 ≠ [] := by simp
      have hp : p.nextAfterSubuserID ≠ 0 := by
        apply hmid
        simp
      have hmid2 : ∀ x ∈ (q :: rest2).dropLast, x.nextAfterSubuserID ≠ 0 := by
        intro x hx
        apply hmid
        simp only [List.dropLast_cons₂, List.mem_cons] at *
        exact Or.inr hx
      have hlast2 : ((q :: rest2).getLast hne).nextAfterSubuserID = 0 := by
        rw [show (q :: rest2).getLast hne = ((p :: q :: rest2).getLast h) from
          (List.getLast_cons hne).symm]
        exact hlast
      have hrec := ih p.nextAfterSubuserID hne hmid2 hlast2
      show fetchSubuserAccess afterID
          (.httpResp 200 "" (some p) :: okPages (q :: rest2)) = _
      rw [fetchSubuserAccess_cons_ok afterID p (okPages (q :: rest2)) hp, hrec]
      simp [List.getLast_cons hne]

/-- A sample grant page with a positive continuation marker. -/
def samplePageA : SubuserAccessPage :=
  ⟨false, [⟨1, "restricted", ["alerts.read"]⟩], 100, 5, ""⟩

/-- A sample final grant page (sentinel marker `0`). -/
def samplePageB : SubuserAccessPage :=
  ⟨true, [⟨5, "admin", []⟩], 0, 0, ""⟩

/-- A sample scalar read-back body. -/
def sampleGot : TeammateGetResponse :=
  ⟨"user@example.com", "user@example.com", "active", "Ada", ""⟩

/-- A sample tracked state with a resolvable identity. -/
def sampleState : SsoTeammateModel :=
  ⟨.value "user@example.com", .value "user@example.com", .null, .null,
   .value true, .null, .null⟩

/-- A sample tracked state with neither email nor id. -/
def sampleEmptyState : SsoTeammateModel :=
  ⟨.null, .null, .null, .null, .null, .null, .null⟩

/-- C1 (counterexample): the read-back mapping has no permission-mode
check — an `admin` grant returned with a non-empty scope list keeps its
scopes verbatim in the observed state instead of getting the null
"no scopes" marker the claim requires. -/
theorem claim_C1_counterexample :
    (entryToObject ⟨12345, "admin", ["mail.send"]⟩).permissionType = "admin" ∧
    (["mail.send"] : List String) ≠ [] ∧
    (entryToObject ⟨12345, "admin", ["mail.send"]⟩).scopes = TFSet.value ["mail.send"] ∧
    (entryToObject ⟨12345, "admin", ["mail.send"]⟩).scopes ≠ TFSet.null := by
  decide

/-- C1 (amended): the observed grant built from a read-back entry
carries the explicit null "no scopes" marker exactly when the returned
scope list is empty, and otherwise — for `restricted` and `admin`
grants alike — preserves the returned scopes verbatim; id and
permission mode are always copied unchanged and no error is raised. -/
theorem claim_C1_scope_normalization (e : SubuserAccessEntry) :
    ((entryToObject e).scopes = TFSet.null ↔ e.scopes = []) ∧
    (e.scopes ≠ [] → (entryToObject e).scopes = TFSet.value e.scopes) ∧
    (entryToObject e).id = e.id ∧
    (entryToObject e).permissionType = e.permissionType := by
  rcases e with ⟨i, pt, scopes⟩
  cases scopes <;> simp [entryToObject]

/-- Witness for C1's amended theorem at a concrete restricted entry. -/
theorem claim_C1_scope_normalization_witness :
    (["mail.send"] : List String) ≠ [] ∧
    (entryToObject ⟨7, "restricted", ["mail.send"]⟩).scopes = TFSet.value ["mail.send"] :=
  ⟨by decide,
   (claim_C1_scope_normalization ⟨7, "restricted", ["mail.send"]⟩).2.1 (by decide)⟩

/-- C5: Delete succeeds exactly on a status below 300 or equal to 404,
reports a remote error on every other status, and a Delete answered 404
has the same outcome as one answered 200. -/
theorem claim_C5_idempotent_delete (state : SsoTeammateModel) (status : Nat)
    (body b1 b2 : String) (d d1 d2 : Option Unit) :
    (deleteResource state (.httpResp status body d) = none ↔
      (status < 300 ∨ status = 404)) ∧
    (status ≥ 300 → status ≠ 404 →
      deleteResource state (.httpResp status body d) = some (.remote status body)) ∧
    deleteResource state (.httpResp 404 b1 d1) = deleteResource state (.httpResp 200 b2 d2) := by
  refine ⟨?_, ?_, by simp [deleteResource]⟩
  · unfold deleteResource
    dsimp only
    split_ifs with hc
    · simp only [reduceCtorEq, false_iff]
      omega
    · simp only [true_iff]
      omega
  · intro h3 h4
    simp [deleteResource, h3, h4]

/-- Witness for C5 at status 500 (error) and the 404-vs-200 agreement. -/
theorem claim_C5_idempotent_delete_witness :
    deleteResource sampleState (.httpResp 500 "oops" none) = some (.remote 500 "oops") ∧
    deleteResource sampleState (.httpResp 404 "" none) = none :=
  ⟨(claim_C5_idempotent_delete sampleState 500 "oops" "" "" none none none).2.1
      (by omega) (by omega),
   (claim_C5_idempotent_delete sampleState 404 "" "" "" none none none).1.mpr
      (Or.inr rfl)⟩

/-- C6: when the scalar fetch answers 404, Read removes the resource
from tracked state without reporting an error; any other status
`>= 300` yields a remote error (and no removal). -/
theorem claim_C6_not_found_signaling (state : SsoTeammateModel) (body : String)
    (decoded : Option TeammateGetResponse) (pageResps : List (Response SubuserAccessPage))
    (status : Nat) (hname : resolveUsername state.email state.id ≠ "") :
    (readResource state ⟨.httpResp 404 body decoded, pageResps⟩).1 = .removed ∧
    (status ≥ 300 → status ≠ 404 →
      (readResource state ⟨.httpResp status body decoded, pageResps⟩).1 =
        .err (.remote status body)) := by
  constructor
  · simp [readResource, hname]
  · intro h3 h4
    simp [readResource, hname, h3, h4]

/-- Witness for C6 at a concrete state, a 404 and a 500 response. -/
theorem claim_C6_not_found_signaling_witness :
    (readResource sampleState ⟨.httpResp 404 "" none, []⟩).1 = .removed ∧
    (readResource sampleState ⟨.httpResp 500 "oops" none, []⟩).1 = .err (.remote 500 "oops") :=
  ⟨(claim_C6_not_found_signaling sampleState "" none [] 500 (by decide)).1,
   (claim_C6_not_found_signaling sampleState "oops" none [] 500 (by decide)).2
      (by omega) (by omega)⟩

/-- C9: Read resolves the lookup identity as the stored email when that
is non-empty, otherwise as the stored id (when the id is neither null
nor unknown); when the resolved identity is empty it reports a
configuration error and performs zero remote calls. -/
theorem claim_C9_identity_resolution (state : SsoTeammateModel) (env : ReadEnv) :
    (state.email.valueString ≠ "" →
      resolveUsername state.email state.id = state.email.valueString) ∧
    (state.email.valueString = "" → state.id.isNull = false → state.id.isUnknown = false →
      resolveUsername state.email state.id = state.id.valueString) ∧
    (resolveUsername state.email state.id = "" →
      readResource state env = (.err (.config "Missing identifier"), 0)) := by
  refine ⟨?_, ?_, ?_⟩
  · intro h
    simp [resolveUsername, h]
  · intro h1 h2 h3
    simp [resolveUsername, h1, h2, h3]
  · intro h
    simp [readResource, h]

/-- Witness for C9: a state with neither email nor id leads to the
configuration error with no remote call. -/
theorem claim_C9_identity_resolution_witness :
    resolveUsername sampleEmptyState.email sampleEmptyState.id = "" ∧
    readResource sampleEmptyState ⟨.httpResp 200 "" none, []⟩ =
      (.err (.config "Missing identifier"), 0) :=
  ⟨by decide,
   (claim_C9_identity_resolution sampleEmptyState ⟨.httpResp 200 "" none, []⟩).2.2
      (by decide)⟩

/-- C2: for any finite run of pages whose last marker is the sentinel
`0` (and whose earlier markers are nonzero, so the loop consumes them
all), the pagination loop terminates with the in-order concatenation of
the pages' grant lists, whose length is the sum of the per-page
lengths. -/
theorem claim_C2_pagination_termination (pages : List SubuserAccessPage)
    (h : pages ≠ [])
    (hmid : ∀ p ∈ pages.dropLast, p.nextAfterSubuserID ≠ 0)
    (hlast : (pages.getLast h).nextAfterSubuserID = 0) :
    (fetchSubuserAccess 0 (okPages pages)).2 =
      .ok ((pages.map (fun p => p.subuserAccess)).flatten,
        (pages.getLast h).hasRestrictedSubuserAccess) ∧
    ((pages.map (fun p => p.subuserAccess)).flatten).length =
      (pages.map (fun p => p.subuserAccess.length)).sum := by
  constructor
  · rw [fetchSubuserAccess_okPages 0 pages h hmid hlast]
  · simp [List.length_flatten, Function.comp_def]

/-- Witness for C2 on a concrete two-page run. -/
theorem claim_C2_pagination_termination_witness :
    (fetchSubuserAccess 0 (okPages [samplePageA, samplePageB])).2 =
      .ok ([⟨1, "restricted", ["alerts.read"]⟩, ⟨5, "admin", []⟩], true) ∧
    (([samplePageA, samplePageB].map (fun p => p.subuserAccess)).flatten).length = 2 := by
  have hc := claim_C2_pagination_termination [samplePageA, samplePageB]
    (by simp) (by simp [samplePageA]) (by simp [samplePageB])
  refine ⟨?_, ?_⟩
  · rw [hc.1]
    simp [samplePageA, samplePageB]
  · simp [samplePageA, samplePageB]

/-- C3 (counterexample): the loop sends the returned marker as the next
request's `after_subuser_id` only when it is positive. A returned
marker of `-1` is nonzero, so iteration continues, yet the second
request carries no after-identity parameter. -/
theorem claim_C3_counterexample :
    (⟨false, [], 0, -1, ""⟩ : SubuserAccessPage).nextAfterSubuserID ≠ 0 ∧
    (fetchSubuserAccess 0
        (okPages [⟨false, [], 0, -1, ""⟩, ⟨false, [], 0, 0, ""⟩])).1.get? 1 =
      some { limit := 100, afterSubuserID := none } := by
  decide

/-- C3 (amended): on a well-formed run the first request carries no
after-identity parameter, every request carries the fixed page-size
hint 100, iteration stops exactly at the sentinel marker `0` (one
request per page), and the request after each page is built from that
page's returned marker — the marker is sent as the after-identity
parameter when it is positive, while a negative nonzero marker still
continues iteration but the next request carries no after-identity
parameter. -/
theorem claim_C3_request_parameters (pages : List SubuserAccessPage)
    (h : pages ≠ [])
    (hmid : ∀ p ∈ pages.dropLast, p.nextAfterSubuserID ≠ 0)
    (hlast : (pages.getLast h).nextAfterSubuserID = 0) :
    (fetchSubuserAccess 0 (okPages pages)).1 =
      (0 :: pages.dropLast.map (fun p => p.nextAfterSubuserID)).map mkPageRequest ∧
    (∀ r ∈ (fetchSubuserAccess 0 (okPages pages)).1, r.limit = 100) ∧
    (fetchSubuserAccess 0 (okPages pages)).1.length = pages.length ∧
    mkPageRequest 0 = { limit := 100, afterSubuserID := none } ∧
    (∀ a : Int, 0 < a → mkPageRequest a = { limit := 100, afterSubuserID := some a }) := by
  have hm := fetchSubuserAccess_okPages 0 pages h hmid hlast
  have hlen : 0 < pages.length := List.length_pos.mpr h
  refine ⟨by rw [hm], ?_, ?_, rfl, ?_⟩
  · intro r hr
    rw [hm] at hr
    simp only [List.mem_map] at hr
    obtain ⟨a, _, rfl⟩ := hr
    rfl
  · rw [hm]
    simp only [List.length_map, List.length_cons, List.length_dropLast]
    omega
  · intro a ha
    simp [mkPageRequest, ha]

/-- Witness for C3's amended theorem on a concrete two-page run with a
positive marker. -/
theorem claim_C3_request_parameters_witness :
    (fetchSubuserAccess 0 (okPages [samplePageA, samplePageB])).1 =
      [{ limit := 100, afterSubuserID := none },
       { limit := 100, afterSubuserID := some 5 }] ∧
    (fetchSubuserAccess 0 (okPages [samplePageA, samplePageB])).1.length = 2 := by
  have hc := claim_C3_request_parameters [samplePageA, samplePageB]
    (by simp) (by simp [samplePageA]) (by simp [samplePageB])
  refine ⟨?_, hc.2.2.1⟩
  rw [hc.1]
  simp [samplePageA, samplePageB, mkPageRequest]

/-- C4: on a well-formed multi-page fetch, the restriction flag in the
state Read commits equals the `has_restricted_subuser_access` flag of
the last page fetched, whatever the earlier pages reported. -/
theorem claim_C4_flag_from_last_page (state : SsoTeammateModel)
    (body : String) (got : TeammateGetResponse)
    (pages : List SubuserAccessPage) (h : pages ≠ [])
    (hmid : ∀ p ∈ pages.dropLast, p.nextAfterSubuserID ≠ 0)
    (hlast : (pages.getLast h).nextAfterSubuserID = 0)
    (hname : resolveUsername state.email state.id ≠ "") :
    ∃ st, (readResource state ⟨.httpResp 200 body (some got), okPages pages⟩).1 = .ok st ∧
      st.hasRestricted = .value ((pages.getLast h).hasRestrictedSubuserAccess) := by
  have hm := fetchSubuserAccess_okPages 0 pages h hmid hlast
  have hread : (readResource state ⟨.httpResp 200 body (some got), okPages pages⟩).1 =
      .ok (assembleReadState got ((pages.map (fun p => p.subuserAccess)).flatten)
        ((pages.getLast h).hasRestrictedSubuserAccess)) := by
    simp only [readResource]
    rw [if_neg hname]
    simp only [hm]
    norm_num
  exact ⟨_, hread, rfl⟩

/-- Witness for C4: pages reporting `false` then `true` commit `true`. -/
theorem claim_C4_flag_from_last_page_witness :
    ∃ st, (readResource sampleState
        ⟨.httpResp 200 "" (some sampleGot), okPages [samplePageA, samplePageB]⟩).1 = .ok st ∧
      st.hasRestricted = .value true := by
  have hc := claim_C4_flag_from_last_page sampleState "" sampleGot
    [samplePageA, samplePageB] (by simp) (by simp [samplePageA]) (by simp [samplePageB])
    (by decide)
  simpa [samplePageB] using hc

/-- Membership in the serialized patch keys, spelled out per field. -/
theorem mem_patchJSONFields (p : SsoPatchPayload) (s : String) :
    s ∈ patchJSONFields p ↔
      (s = "first_name" ∧ p.firstName.isSome = true) ∨
      (s = "last_name" ∧ p.lastName.isSome = true) ∨
      (s = "has_restricted_subuser_access" ∧ p.hasRestricted.isSome = true) ∨
      (s = "subuser_access" ∧ p.subuserAccess.length > 0) := by
  unfold patchJSONFields
  split_ifs <;> simp_all

/-- C7 (counterexample): a desired configuration whose grant collection
is present but empty produces a patch whose serialized body omits
`subuser_access` entirely (the `omitempty` empty-slice rule), so the
server keeps its existing grants instead of receiving a full
replacement; a present scalar field such as the first name is still
sent. -/
theorem claim_C7_counterexample :
    (TFList.value [] : TFList).isNull = false ∧
    (TFList.value [] : TFList).isUnknown = false ∧
    "subuser_access" ∉ patchJSONFields (mkPatchPayload
      ⟨.null, .value "a@b.c", .value "Ann", .null, .value true, .value [], .null⟩) ∧
    "first_name" ∈ patchJSONFields (mkPatchPayload
      ⟨.null, .value "a@b.c", .value "Ann", .null, .value true, .value [], .null⟩) := by
  decide

/-- C7 (amended): the patch body carries `first_name`, `last_name` and
`has_restricted_subuser_access` exactly when the corresponding desired
field is neither null nor unknown, and carries `subuser_access` exactly
when the desired grant collection is a known, *non-empty* list — in
which case the complete converted grant list is sent as a full
replacement, never a diff; a present-but-empty grant collection is
omitted from the body. -/
theorem claim_C7_patch_shape (plan : SsoTeammateModel) :
    ("first_name" ∈ patchJSONFields (mkPatchPayload plan) ↔
      plan.firstName.isNull = false ∧ plan.firstName.isUnknown = false) ∧
    ("last_name" ∈ patchJSONFields (mkPatchPayload plan) ↔
      plan.lastName.isNull = false ∧ plan.lastName.isUnknown = false) ∧
    ("has_restricted_subuser_access" ∈ patchJSONFields (mkPatchPayload plan) ↔
      plan.hasRestricted.isNull = false ∧ plan.hasRestricted.isUnknown = false) ∧
    ("subuser_access" ∈ patchJSONFields (mkPatchPayload plan) ↔
      ∃ objs, plan.subuserAccess = .value objs ∧ objs ≠ []) ∧
    (∀ objs, plan.subuserAccess = .value objs →
      (mkPatchPayload plan).subuserAccess = objs.map objToEntry) := by
  rcases plan with ⟨pid, pemail, pfn, pln, phr, psa, pst⟩
  refine ⟨?_, ?_, ?_, ?_, ?_⟩
  · rw [mem_patchJSONFields]
    cases pfn <;> simp [mkPatchPayload, TFString.isNull, TFString.isUnknown]
  · rw [mem_patchJSONFields]
    cases pln <;> simp [mkPatchPayload, TFString.isNull, TFString.isUnknown]
  · rw [mem_patchJSONFields]
    cases phr <;> simp [mkPatchPayload, TFBool.isNull, TFBool.isUnknown]
  · rw [mem_patchJSONFields]
    cases psa with
    | null => simp [mkPatchPayload, TFList.isNull]
    | unknown => simp [mkPatchPayload, TFList.isUnknown]
    | value objs =>
      simp [mkPatchPayload, TFList.isNull, TFList.isUnknown, TFList.objs,
        List.length_pos]
  · intro objs hobjs
    subst hobjs
    simp [mkPatchPayload, TFList.isNull, TFList.isUnknown, TFList.objs]

/-- Witness for C7's amended theorem: a desired configuration with a
known first name and one known grant sends both fields, the grant list
as a full replacement. -/
theorem claim_C7_patch_shape_witness :
    "first_name" ∈ patchJSONFields (mkPatchPayload
      ⟨.null, .value "a@b.c", .value "Ann", .null, .value true,
       .value [⟨7, "restricted", .value ["mail.send"]⟩], .null⟩) ∧
    (mkPatchPayload
      ⟨.null, .value "a@b.c", .value "Ann", .null, .value true,
       .value [⟨7, "restricted", .value ["mail.send"]⟩], .null⟩).subuserAccess =
      [⟨7, "restricted", ["mail.send"]⟩] := by
  have hc := claim_C7_patch_shape
    ⟨.null, .value "a@b.c", .value "Ann", .null, .value true,
     .value [⟨7, "restricted", .value ["mail.send"]⟩], .null⟩
  refine ⟨hc.1.mpr (by decide), ?_⟩
  rw [hc.2.2.2.2 [⟨7, "restricted", .value ["mail.send"]⟩] rfl]
  decide

/-- A Create/Update commits a state exactly when the mutating call, the
scalar read-back (with decode), and the whole pagination loop all
succeeded. -/
theorem mutateWithReadback_ok_iff (plan : SsoTeammateModel) (env : MutateEnv) :
    (∃ st, mutateWithReadback plan env = .ok st) ↔ envAllOk env := by
  rcases env with ⟨mr, sr, prs⟩
  unfold mutateWithReadback envAllOk
  cases mr with
  | transportError m => simp [Response.succeeds]
  | httpResp s b d =>
    dsimp only
    split_ifs with hs
    · simp only [reduceCtorEq, exists_false, false_iff, not_and, Response.succeeds]
      intro hlt
      simp only [decide_eq_true_eq] at hlt
      omega
    · have hs' : Response.succeeds (Response.httpResp s b d : Response Unit) = true := by
        simp [Response.succeeds]
        omega
      rw [hs']
      cases sr with
      | transportError m => simp [Response.decodes]
      | httpResp gs gb gd =>
        dsimp only
        split_ifs with hg
        · simp only [reduceCtorEq, exists_false, false_iff, not_and, Response.decodes]
          cases gd with
          | none => simp
          | some g =>
            simp only [decide_eq_true_eq]
            intro hlt
            omega
        · cases gd with
          | none => simp [Response.decodes]
          | some got =>
            have hg' : Response.decodes (Response.httpResp gs gb (some got)) = true := by
              simp [Response.decodes]
              omega
            rw [hg']
            cases hfe : (fetchSubuserAccess 0 prs).2 with
            | error e => simp [hfe, fetchOk]
            | ok v => simp [hfe, fetchOk]

/-- C8: Create and Update commit a state exactly when every remote
interaction succeeded (mutation, scalar read-back with decode, full
pagination); whenever any of them fails the operation reports an error
and commits nothing, so the prior observed state stays authoritative. -/
theorem claim_C8_atomic_mutations (plan state : SsoTeammateModel) (env : MutateEnv) :
    ((∃ st, createResource plan env = .ok st) ↔ envAllOk env) ∧
    ((∃ st, updateResource plan state env = .ok st) ↔ envAllOk env) ∧
    (¬ envAllOk env →
      (∃ e, createResource plan env = .err e) ∧
      (∃ e, updateResource plan state env = .err e)) := by
  have h1 := mutateWithReadback_ok_iff plan env
  refine ⟨h1, h1, ?_⟩
  intro hno
  constructor
  · cases hres : createResource plan env with
    | err e => exact ⟨e, rfl⟩
    | ok st => exact absurd (h1.mp ⟨st, hres⟩) hno
  · cases hres : updateResource plan state env with
    | err e => exact ⟨e, rfl⟩
    | ok st => exact absurd (h1.mp ⟨st, hres⟩) hno

/-- An environment whose mutating call is refused with status 500. -/
def failedMutateEnv : MutateEnv :=
  ⟨.httpResp 500 "boom" none, .httpResp 200 "" (some sampleGot), okPages [samplePageB]⟩

/-- Witness for C8: the failed mutation yields errors from both Create
and Update and no committed state. -/
theorem claim_C8_atomic_mutations_witness :
    ¬ envAllOk failedMutateEnv ∧
    (∃ e, createResource sampleState failedMutateEnv = .err e) ∧
    (∃ e, updateResource sampleState sampleEmptyState failedMutateEnv = .err e) := by
  have hno : ¬ envAllOk failedMutateEnv := by decide
  exact ⟨hno, (claim_C8_atomic_mutations sampleState sampleEmptyState failedMutateEnv).2.2 hno⟩

/-- Name normalization never stores an empty-string value. -/
theorem normName_ne_emptyValue (s : String) : normName s ≠ TFString.value "" := by
  unfold normName
  split_ifs with h
  · intro hc
    injection hc with h2
    exact h h2
  · simp

/-- Any state committed by Create/Update is an `assembleReadback` of
some server answers. -/
theorem mutateWithReadback_ok_shape (plan : SsoTeammateModel) (env : MutateEnv)
    (st : SsoTeammateModel) (hok : mutateWithReadback plan env = .ok st) :
    ∃ got entries flag, st = assembleReadback plan got entries flag := by
  rcases env with ⟨mr, sr, prs⟩
  unfold mutateWithReadback at hok
  cases mr with
  | transportError m => exact absurd hok (by simp)
  | httpResp s b d =>
    dsimp only at hok
    by_cases hs : s ≥ 300
    · rw [if_pos hs] at hok
      exact absurd hok (by simp)
    · rw [if_neg hs] at hok
      cases sr with
      | transportError m => exact absurd hok (by simp)
      | httpResp gs gb gd =>
        dsimp only at hok
        by_cases hg : gs ≥ 300
        · rw [if_pos hg] at hok
          exact absurd hok (by simp)
        · rw [if_neg hg] at hok
          cases gd with
          | none => exact absurd hok (by simp)
          | some got =>
            cases hfe : (fetchSubuserAccess 0 prs).2 with
            | error e =>
              rw [hfe] at hok
              exact absurd hok (by simp)
            | ok v =>
              obtain ⟨entries, flag⟩ := v
              rw [hfe] at hok
              dsimp only at hok
              injection hok with h2
              exact ⟨got, entries, flag, h2.symm⟩

/-- Any state committed by Read is an `assembleReadState` of some
server answers. -/
theorem readResource_ok_shape (state : SsoTeammateModel) (env : ReadEnv)
    (st : SsoTeammateModel) (hok : (readResource state env).1 = .ok st) :
    ∃ got entries flag, st = assembleReadState got entries flag := by
  rcases env with ⟨sr, prs⟩
  unfold readResource at hok
  by_cases hu : resolveUsername state.email state.id = ""
  · rw [if_pos hu] at hok
    exact absurd hok (by simp)
  · rw [if_neg hu] at hok
    cases sr with
    | transportError m => exact absurd hok (by simp)
    | httpResp s b d =>
      dsimp only at hok
      by_cases h404 : s = 404
      · rw [if_pos h404] at hok
        exact absurd hok (by simp)
      · rw [if_neg h404] at hok
        by_cases h300 : s ≥ 300
        · rw [if_pos h300] at hok
          exact absurd hok (by simp)
        · rw [if_neg h300] at hok
          cases d with
          | none => exact absurd hok (by simp)
          | some got =>
            cases hfe : (fetchSubuserAccess 0 prs).2 with
            | error e =>
              rw [hfe] at hok
              exact absurd hok (by simp)
            | ok v =>
              obtain ⟨entries, flag⟩ := v
              rw [hfe] at hok
              dsimp only at hok
              injection hok with h2
              exact ⟨got, entries, flag, h2.symm⟩

/-- C10: the read-back of Create, Read and Update stores a server name
verbatim when non-empty and as the explicit null value when empty, so a
committed state never carries an empty-string first or last name. -/
theorem claim_C10_no_empty_names (s : String) (plan prior st1 st2 st3 : SsoTeammateModel)
    (menv : MutateEnv) (renv : ReadEnv) :
    ((s ≠ "" → normName s = .value s) ∧ normName "" = .null) ∧
    (createResource plan menv = .ok st1 →
      st1.firstName ≠ .value "" ∧ st1.lastName ≠ .value "") ∧
    (updateResource plan prior menv = .ok st2 →
      st2.firstName ≠ .value "" ∧ st2.lastName ≠ .value "") ∧
    ((readResource prior renv).1 = .ok st3 →
      st3.firstName ≠ .value "" ∧ st3.lastName ≠ .value "") := by
  refine ⟨⟨?_, by simp [normName]⟩, ?_, ?_, ?_⟩
  · intro h
    simp [normName, h]
  · intro hok
    obtain ⟨got, entries, flag, rfl⟩ := mutateWithReadback_ok_shape plan menv st1 hok
    exact ⟨normName_ne_emptyValue _, normName_ne_emptyValue _⟩
  · intro hok
    obtain ⟨got, entries, flag, rfl⟩ := mutateWithReadback_ok_shape plan menv st2 hok
    exact ⟨normName_ne_emptyValue _, normName_ne_emptyValue _⟩
  · intro hok
    obtain ⟨got, entries, flag, rfl⟩ := readResource_ok_shape prior renv st3 hok
    exact ⟨normName_ne_emptyValue _, normName_ne_emptyValue _⟩

/-- An environment where every call of a Create/Update succeeds. -/
def goodMutateEnv : MutateEnv :=
  ⟨.httpResp 204 "" none, .httpResp 200 "" (some sampleGot), okPages [samplePageB]⟩

/-- Witness for C10: a successful Create whose server answer has first
name `"Ada"` and empty last name commits `"Ada"` verbatim and a null
last name, neither an empty-string value. -/
theorem claim_C10_no_empty_names_witness :
    createResource sampleState goodMutateEnv =
      .ok (assembleReadback sampleState sampleGot [⟨5, "admin", []⟩] true) ∧
    ((assembleReadback sampleState sampleGot [⟨5, "admin", []⟩] true).firstName ≠ .value "" ∧
     (assembleReadback sampleState sampleGot [⟨5, "admin", []⟩] true).lastName ≠ .value "") := by
  have hok : createResource sampleState goodMutateEnv =
      .ok (assembleReadback sampleState sampleGot [⟨5, "admin", []⟩] true) := by
    decide
  exact ⟨hok,
    (claim_C10_no_empty_names "x" sampleState sampleState
      (assembleReadback sampleState sampleGot [⟨5, "admin", []⟩] true)
      sampleState sampleState goodMutateEnv ⟨.httpResp 200 "" none, []⟩).2.1 hok⟩

end SendGridSSOTeammate
